import Mathlib

/-!
# Verification of the notion-mcp-server core

A shallow embedding of the core of the `notion-mcp-server` repository,
together with theorems settling the claims of its natural-language
specification.

Embedded source files:
* `src/openapi-mcp-server/mcp/proxy.ts` (`MCPProxy`): `callTool`, `listTools`,
  the `ListTools`/`CallTool` request handlers, `parseHeaders`,
  `truncateToolName`.
* `scripts/start-remote-server.ts`: the file holds three near-duplicate
  server variants.  Variant 1 (custom `SSETransport`): `handleSSEConnection`
  and `app.post('/messages')` with query-parameter correlation and a
  single-session fallback.  Variant 2 (`/mcp` POST endpoint):
  `getOrCreateServer` with a `serverCache` keyed by the colon-joined string
  `notionApiKey:baseUrl:notionApiVersion`.  Variant 3 (`SSEServerTransport`):
  `app.post('/messages/:sessionId')` (path-segment correlation) and
  `app.post('/messages')` (X-Session-ID header correlation, no fallback).

JavaScript strings are modelled as Lean `String` (lengths and slices count
characters rather than UTF-16 code units), `undefined`/missing values as
`Option`, thrown exceptions as `Except`, and the `Map` objects holding
sessions and cached servers as insertion-ordered association lists.
-/

/-- JSON values, the payloads flowing through the proxy. -/
inductive Json where
  | null : Json
  | bool : Bool → Json
  | num : Int → Json
  | str : String → Json
  | arr : List Json → Json
  | obj : List (String × Json) → Json

/-- Escaping of one character as `JSON.stringify` escapes it inside a
string literal (quote, backslash, newline). -/
def jsonEscapeChar (c : Char) : String :=
  if c = '"' then "\\\""
  else if c = '\\' then "\\\\"
  else if c = '\n' then "\\n"
  else String.singleton c

/-- Escaping of a character sequence for a JSON string literal. -/
def jsonEscapeList : List Char → String
  | [] => ""
  | c :: cs => jsonEscapeChar c ++ jsonEscapeList cs

/-- Escaping of the characters that `JSON.stringify` always escapes in
string literals. -/
def jsonEscape (s : String) : String :=
  jsonEscapeList s.data

mutual

/-- Model of `JSON.stringify` on the embedded JSON values. -/
def jsonSerialize : Json → String
  | .null => "null"
  | .bool true => "true"
  | .bool false => "false"
  | .num n => toString n
  | .str s => "\"" ++ jsonEscape s ++ "\""
  | .arr xs => "[" ++ jsonSerializeArr xs ++ "]"
  | .obj fs => "\x7b" ++ jsonSerializeObj fs ++ "\x7d"

/-- Comma-separated serialization of a JSON array's elements. -/
def jsonSerializeArr : List Json → String
  | [] => ""
  | [x] => jsonSerialize x
  | x :: y :: xs => jsonSerialize x ++ "," ++ jsonSerializeArr (y :: xs)

/-- Comma-separated serialization of a JSON object's fields. -/
def jsonSerializeObj : List (String × Json) → String
  | [] => ""
  | [(k, v)] => "\"" ++ jsonEscape k ++ "\":" ++ jsonSerialize v
  | (k, v) :: f :: fs =>
      "\"" ++ jsonEscape k ++ "\":" ++ jsonSerialize v ++ "," ++
        jsonSerializeObj (f :: fs)

end

/-- JavaScript string truthiness on an optional string: `undefined` and the
empty string are falsy; every other string is kept. -/
def falsyStr : Option String → Option String
  | none => none
  | some s => if s = "" then none else some s

/-- JavaScript `a || b` on optional strings: the right operand is used when
the left is `undefined` or empty. -/
def jsOr (a b : Option String) : Option String :=
  match falsyStr a with
  | none => falsyStr b
  | some s => some s

/-- Field access on a JSON object; `none` when the value is not an object or
lacks the field (JavaScript property access yielding `undefined`). -/
def getObjField (j : Json) (k : String) : Option Json :=
  match j with
  | .obj fs => fs.lookup k
  | _ => none

/-- JavaScript nullish-ness: both a missing value (`undefined`) and JSON
`null` are nullish, so `??` and `?.` skip them. -/
def jsNullish : Option Json → Option Json
  | some .null => none
  | some j => some j
  | none => none

/-! ## ToolProxy (`MCPProxy`, src/openapi-mcp-server/mcp/proxy.ts) -/

/-- Where an OpenAPI operation parameter lives. -/
inductive ParamLoc where
  | path
  | query
  | header
  | body
deriving DecidableEq

/-- One declared parameter of an operation. -/
structure OperationParam where
  name : String
  loc : ParamLoc
deriving DecidableEq

/-- The operation record kept in `openApiLookup`: the OpenAPI operation
together with its HTTP method and path template. -/
structure Operation where
  method : String
  path : String
  parameters : List OperationParam
deriving DecidableEq

/-- Errors thrown while executing a tool call.  `httpClientError` is the
`HttpClientError` of `src/client/http-client.ts` carrying its `data` payload
(the upstream response information); `unknownMethod` is the
`Error('Method ... not found')` thrown by `callTool`; `otherError` is any
other thrown error. -/
inductive CallErr where
  | httpClientError (data : Option Json)
  | unknownMethod (message : String)
  | otherError (message : String)

/-- The parsed HTTP response returned by `HttpClient.executeOperation`:
the response body plus status. -/
structure HttpResponse where
  status : Int
  data : Json

/-- One content item of an MCP tool result (`{ type: 'text', text }`). -/
structure ContentItem where
  type : String
  text : String

/-- The MCP result envelope returned by `callTool`. -/
structure ToolResult where
  content : List ContentItem

/-- The uniform result envelope `{ content: [{ type: 'text', text }] }`. -/
def textEnvelope (text : String) : ToolResult :=
  { content := [{ type := "text", text := text }] }

/-- The extraction `error.data?.response?.data ?? error.data ?? {}` from the
`HttpClientError` branch of `callTool`. -/
def upstreamData (d : Option Json) : Json :=
  match jsNullish ((jsNullish d).bind (fun j =>
      jsNullish ((jsNullish (getObjField j "response")).bind
        (fun r => getObjField r "data")))) with
  | some dd => dd
  | none =>
      match jsNullish d with
      | some j => j
      | none => .obj []

/-- The fields contributed by `...(typeof data === 'object' ? data :
{ data: data })`: objects spread their fields, arrays spread index keys,
`null` spreads nothing, and primitives are wrapped under a `data` key. -/
def wrapSpreadable : Json → List (String × Json)
  | .obj fs => fs
  | .arr xs => xs.enum.map (fun p => (toString p.1, p.2))
  | .null => []
  | d => [("data", d)]

/-- The object spread `{ status: 'error', ...fields }`: the `status` key
comes first and is overwritten in place when `fields` also carries one;
the remaining fields keep their order. -/
def spreadStatus (fields : List (String × Json)) : List (String × Json) :=
  ("status", (fields.lookup "status").getD (Json.str "error")) ::
    fields.filter (fun p => p.1 != "status")

/-- The structured error payload `callTool` builds from an
`HttpClientError`'s data. -/
def structuredErrorPayload (d : Option Json) : Json :=
  .obj (spreadStatus (wrapSpreadable (upstreamData d)))

/-- Model of `MCPProxy.findOperation`: reverse lookup from an exposed tool name to
its operation record.  The lookup table is abstracted as a function, as the
converter producing it lives outside the embedded sources. -/
def findOperation (lookup : String → Option Operation) (operationId : String) :
    Option Operation :=
  lookup operationId

/-- Model of `MCPProxy.callTool` (public method, and identically the `CallTool`
request handler): look the tool up, execute the operation, wrap the response
in a single-text-item envelope; convert an `HttpClientError` into a
successful envelope with the structured error payload; re-throw every other
error.  The executor is a parameter standing for
`HttpClient.executeOperation`. -/
def callTool (lookup : String → Option Operation)
    (exec : Operation → List (String × Json) → Except CallErr HttpResponse)
    (name : String) (args : List (String × Json)) : Except CallErr ToolResult :=
  match findOperation lookup name with
  | none => .error (.unknownMethod ("Method " ++ name ++ " not found"))
  | some operation =>
      match exec operation args with
      | .ok response => .ok (textEnvelope (jsonSerialize response.data))
      | .error (.httpClientError d) =>
          .ok (textEnvelope (jsonSerialize (structuredErrorPayload d)))
      | .error e => .error e

/-- Claim C1: when the underlying HTTP request fails with an
`HttpClientError`, `callTool` does not re-raise: it returns a successful
result envelope whose single text item serializes the `status: 'error'`
marker spread-merged with the upstream response body; every error that is
not an `HttpClientError` (the unknown-method error, and any other thrown
error) propagates out of `callTool` as a raised error. -/
theorem c1_callTool_upstream_error_envelope
    (lookup : String → Option Operation)
    (exec : Operation → List (String × Json) → Except CallErr HttpResponse)
    (name : String) (args : List (String × Json)) :
    (∀ operation d, lookup name = some operation →
        exec operation args = .error (.httpClientError d) →
        callTool lookup exec name args =
          .ok (textEnvelope (jsonSerialize (structuredErrorPayload d)))) ∧
    (lookup name = none →
        callTool lookup exec name args =
          .error (.unknownMethod ("Method " ++ name ++ " not found"))) ∧
    (∀ operation e, lookup name = some operation →
        exec operation args = .error e →
        (∀ d, e ≠ .httpClientError d) →
        callTool lookup exec name args = .error e) := by
  refine ⟨?_, ?_, ?_⟩
  · intro operation d hLookup hExec
    simp [callTool, findOperation, hLookup, hExec]
  · intro hLookup
    simp [callTool, findOperation, hLookup]
  · intro operation e hLookup hExec hNotHttp
    cases e with
    | httpClientError d => exact absurd rfl (hNotHttp d)
    | unknownMethod m => simp [callTool, findOperation, hLookup, hExec]
    | otherError m => simp [callTool, findOperation, hLookup, hExec]

/-- A one-operation lookup table used to instantiate the claims about
`callTool` on concrete inputs. -/
def pagesLookup : String → Option Operation :=
  fun n =>
    if n = "pages-retrieve" then
      some { method := "GET", path := "/pages/\x7bid\x7d",
             parameters := [{ name := "id", loc := ParamLoc.path }] }
    else none

/-- A concrete executor that fails with an `HttpClientError` whose data is
an upstream body `{ message: "bad" }`. -/
def failingExec : Operation → List (String × Json) → Except CallErr HttpResponse :=
  fun _ _ => .error (.httpClientError (some (Json.obj [("message", Json.str "bad")])))

theorem c1_witness :
    callTool pagesLookup failingExec "pages-retrieve" [] =
      .ok (textEnvelope (jsonSerialize (structuredErrorPayload
        (some (Json.obj [("message", Json.str "bad")]))))) ∧
    jsonSerialize (structuredErrorPayload
        (some (Json.obj [("message", Json.str "bad")]))) =
      "\x7b\"status\":\"error\",\"message\":\"bad\"\x7d" := by
  refine ⟨?_, rfl⟩
  exact (c1_callTool_upstream_error_envelope pagesLookup failingExec
      "pages-retrieve" []).1
    { method := "GET", path := "/pages/\x7bid\x7d",
      parameters := [{ name := "id", loc := ParamLoc.path }] }
    (some (Json.obj [("message", Json.str "bad")])) rfl rfl

/-- Claim C8: a tool name absent from the reverse lookup makes `callTool`
fail with an unknown-method error whose message names the requested tool;
the error is raised (a protocol-level error), not wrapped in a result
envelope. -/
theorem c8_unknown_tool_protocol_error
    (lookup : String → Option Operation)
    (exec : Operation → List (String × Json) → Except CallErr HttpResponse)
    (name : String) (args : List (String × Json))
    (hLookup : lookup name = none) :
    callTool lookup exec name args =
      .error (.unknownMethod ("Method " ++ name ++ " not found")) := by
  simp [callTool, findOperation, hLookup]

theorem c8_witness :
    callTool pagesLookup failingExec "does-not-exist" [] =
      .error (.unknownMethod "Method does-not-exist not found") := by
  have h := c8_unknown_tool_protocol_error pagesLookup failingExec
    "does-not-exist" [] rfl
  simpa using h

/-! ## Tool catalog (`listTools`, the `ListTools` handler, `truncateToolName`) -/

/-- One callable method of a converted tool group (`NewToolDefinition`
method entry in proxy.ts). -/
structure MethodDef where
  name : String
  description : String
  inputSchema : Json

/-- Model of `NewToolDefinition`: the methods grouped under one tool name by the
OpenAPI converter. -/
structure NewToolDefinition where
  methods : List MethodDef

/-- One entry of the exposed tool catalog (MCP `Tool`). -/
structure ToolEntry where
  name : String
  description : String
  inputSchema : Json

/-- Model of `MCPProxy.truncateToolName`: names longer than 64 characters are cut to
their first 64 characters (`name.slice(0, 64)`); shorter names are kept. -/
def truncateToolName (name : String) : String :=
  if name.length ≤ 64 then name else name.take 64

/-- Model of `MCPProxy.listTools` (public method): every method of every tool group
becomes one catalog entry named `{toolName}-{method.name}` after
truncation, in declaration order.  The `tools` record is an
insertion-ordered association list, as produced by `Object.entries`. -/
def listTools (tools : List (String × NewToolDefinition)) : List ToolEntry :=
  tools.flatMap (fun p =>
    p.2.methods.map (fun m =>
      { name := truncateToolName (p.1 ++ "-" ++ m.name),
        description := m.description,
        inputSchema := m.inputSchema }))

/-- The `ListTools` request handler installed by `MCPProxy.setupHandlers`:
identical to `listTools` except that the name is
`toolName ? toolName-method : method` — an empty (falsy) group name drops
the dash. -/
def handlerListTools (tools : List (String × NewToolDefinition)) : List ToolEntry :=
  tools.flatMap (fun p =>
    p.2.methods.map (fun m =>
      { name := truncateToolName (if p.1 = "" then m.name else p.1 ++ "-" ++ m.name),
        description := m.description,
        inputSchema := m.inputSchema }))

/-- Claim C3: every operation whose derived name `{resource}-{method}` is at
most 64 characters yields a `listTools()` entry named exactly that string,
and a longer derived name yields an entry named its first 64 characters;
truncation is the pure function `truncateToolName` of the name alone. -/
theorem c3_listTools_truncation
    (tools : List (String × NewToolDefinition))
    (toolName : String) (d : NewToolDefinition) (m : MethodDef)
    (h1 : (toolName, d) ∈ tools) (h2 : m ∈ d.methods) :
    ∃ e ∈ listTools tools,
      e.name = (if (toolName ++ "-" ++ m.name).length ≤ 64
                then toolName ++ "-" ++ m.name
                else (toolName ++ "-" ++ m.name).take 64) ∧
      e.description = m.description ∧
      e.name = truncateToolName (toolName ++ "-" ++ m.name) := by
  refine ⟨{ name := truncateToolName (toolName ++ "-" ++ m.name),
            description := m.description,
            inputSchema := m.inputSchema }, ?_, rfl, rfl, rfl⟩
  exact List.mem_flatMap.mpr ⟨(toolName, d), h1, List.mem_map_of_mem _ h2⟩

/-- A concrete one-method catalog used to instantiate the catalog claims. -/
def sampleMethod : MethodDef :=
  { name := "retrieve", description := "Retrieve a page", inputSchema := Json.null }

/-- A concrete tools record with one resource group. -/
def sampleTools : List (String × NewToolDefinition) :=
  [("pages", { methods := [sampleMethod] })]

theorem c3_witness :
    (∃ e ∈ listTools sampleTools,
      e.name = (if ("pages" ++ "-" ++ sampleMethod.name).length ≤ 64
                then "pages" ++ "-" ++ sampleMethod.name
                else ("pages" ++ "-" ++ sampleMethod.name).take 64) ∧
      e.description = sampleMethod.description ∧
      e.name = truncateToolName ("pages" ++ "-" ++ sampleMethod.name)) ∧
    truncateToolName ("pages" ++ "-" ++ sampleMethod.name) = "pages-retrieve" :=
  ⟨c3_listTools_truncation sampleTools "pages" { methods := [sampleMethod] }
      sampleMethod (List.mem_singleton.mpr rfl) (List.mem_singleton.mpr rfl),
    by decide⟩

/-- A tools record whose only resource group has an empty name. -/
def emptyNameTools : List (String × NewToolDefinition) :=
  [("", { methods := [{ name := "m", description := "d", inputSchema := Json.null }] })]

/-- Counterexample to claim C10: on a tools record with an empty
resource-group name the handler catalog and the `listTools()` catalog
disagree — the handler names the entry `m`, `listTools()` names it `-m`. -/
theorem c10_counterexample :
    (handlerListTools emptyNameTools).map ToolEntry.name = ["m"] ∧
    (listTools emptyNameTools).map ToolEntry.name = ["-m"] ∧
    handlerListTools emptyNameTools ≠ listTools emptyNameTools := by
  refine ⟨rfl, rfl, fun hEq => ?_⟩
  exact absurd (congrArg (List.map ToolEntry.name) hEq) (by decide)

/-- Pointwise-equal functions flat-map equally over a list. -/
theorem flatMapCongrMem {α β : Type} (l : List α) (f g : α → List β)
    (h : ∀ a ∈ l, f a = g a) : l.flatMap f = l.flatMap g := by
  induction l with
  | nil => rfl
  | cons x xs ih =>
      rw [List.flatMap_cons, List.flatMap_cons, h x (List.mem_cons_self x xs),
        ih (fun a ha => h a (List.mem_cons_of_mem x ha))]

/-- Claim C10 (amended): for every tools record in which every
resource-group name is nonempty, the catalog produced by the `ListTools`
request handler equals the one produced by the public `listTools()` method
(same names, order, descriptions and input schemas); when a group name is
empty they differ, the handler emitting the method name alone and
`listTools()` the dash-joined form. -/
theorem c10_handler_matches_listTools
    (tools : List (String × NewToolDefinition))
    (h : ∀ p ∈ tools, p.1 ≠ "") :
    handlerListTools tools = listTools tools := by
  unfold handlerListTools listTools
  apply flatMapCongrMem
  intro p hp
  apply List.map_congr_left
  intro m _
  rw [if_neg (h p hp)]

theorem c10_witness :
    handlerListTools sampleTools = listTools sampleTools :=
  c10_handler_matches_listTools sampleTools (by decide)

/-! ## RequestExecutor (`parseHeaders` and the request construction) -/

/-- Model of `MCPProxyConfig` (proxy.ts): per-connection configuration. -/
structure MCPProxyConfig where
  baseUrl : Option String
  notionApiKey : String
  notionApiVersion : Option String
deriving DecidableEq

/-- Model of `MCPProxy.parseHeaders`: the config's credential is preferred over the
environment (`config?.notionApiKey || process.env.NOTION_API_KEY`, likewise
for the version with default `2022-06-28`); without any credential the
header set is empty, otherwise it is exactly the `Authorization: Bearer`
header and the `Notion-Version` header. -/
def parseHeaders (config : Option MCPProxyConfig)
    (envApiKey envApiVersion : Option String) : List (String × String) :=
  let apiKey := jsOr (config.map (fun c => c.notionApiKey)) envApiKey
  let apiVersion :=
    match jsOr (config.bind (fun c => c.notionApiVersion)) envApiVersion with
    | some v => v
    | none => "2022-06-28"
  match apiKey with
  | none => []
  | some k => [("Authorization", "Bearer " ++ k), ("Notion-Version", apiVersion)]

/-- Splitting a character sequence at the first occurrence of a pattern:
the part before and the part after the occurrence. -/
def splitAtPattern (pat : List Char) : List Char → Option (List Char × List Char)
  | [] => none
  | c :: cs =>
      if (c :: cs).take pat.length = pat then some ([], (c :: cs).drop pat.length)
      else
        match splitAtPattern pat cs with
        | some (pre, post) => some (c :: pre, post)
        | none => none

/-- Replacement of the first occurrence of a pattern in a string. -/
def replaceFirst (s pat rep : String) : String :=
  match splitAtPattern pat.data s.data with
  | some (pre, post) => String.mk (pre ++ rep.data ++ post)
  | none => s

/-- Modelled from the spec: path-template substitution performed by
`HttpClient.executeOperation` (`src/client/http-client.ts` is not among the
embedded sources).  Per §4.2, every path parameter is substituted into its
`\x7bparam\x7d` placeholder in the path template. -/
def substitutePathParams (template : String) (args : List (String × String)) : String :=
  args.foldl (fun acc kv => replaceFirst acc ("\x7b" ++ kv.1 ++ "\x7d") kv.2) template

/-- One concrete HTTP request issued against the described API. -/
structure HttpRequest where
  method : String
  url : String
  headers : List (String × String)
deriving DecidableEq

/-- The query-string suffix built from the query-located arguments. -/
def buildQueryString (queryArgs : List (String × String)) : String :=
  match queryArgs with
  | [] => ""
  | _ => "?" ++ String.intercalate "&" (queryArgs.map (fun kv => kv.1 ++ "=" ++ kv.2))

/-- Modelled from the spec: the request construction of
`HttpClient.executeOperation` (§4.2, the source file is not among the
embedded sources).  Path parameters are substituted into the path template,
query parameters are attached as the query string, the fixed header set is
attached, and exactly one request is issued against the base URL; the
returned list holds the issued requests. -/
def executeOperationRequests (baseUrl : String) (headers : List (String × String))
    (op : Operation) (args : List (String × String)) : List HttpRequest :=
  let pathArgs := args.filter (fun kv =>
    op.parameters.any (fun p => p.name == kv.1 && p.loc == ParamLoc.path))
  let queryArgs := args.filter (fun kv =>
    op.parameters.any (fun p => p.name == kv.1 && p.loc == ParamLoc.query))
  [{ method := op.method,
     url := baseUrl ++ substitutePathParams op.path pathArgs ++ buildQueryString queryArgs,
     headers := headers }]

/-- The single operation `GET /pages/\x7bid\x7d` of claim C9. -/
def examplePagesOperation : Operation :=
  { method := "GET", path := "/pages/\x7bid\x7d",
    parameters := [{ name := "id", loc := ParamLoc.path }] }

/-- The connection configuration of claim C9. -/
def exampleConnectionConfig : MCPProxyConfig :=
  { baseUrl := some "https://api.example.com", notionApiKey := "k",
    notionApiVersion := some "v1" }

/-- Claim C9: with one operation `GET /pages/\x7bid\x7d` and the
configuration `baseUrl https://api.example.com, credential k, version v1`,
calling the tool with argument `id = 42` issues exactly one GET request to
`https://api.example.com/pages/42` carrying the headers
`Authorization: Bearer k` and `Notion-Version: v1`. -/
theorem c9_request_construction :
    executeOperationRequests "https://api.example.com"
        (parseHeaders (some exampleConnectionConfig) none none)
        examplePagesOperation [("id", "42")] =
      [{ method := "GET",
         url := "https://api.example.com/pages/42",
         headers := [("Authorization", "Bearer k"), ("Notion-Version", "v1")] }] := by
  decide

/-! ## SessionRegistry + TransportBridge (scripts/start-remote-server.ts) -/

/-- One entry of the `sessions` map of server variant 1: the session id, the
credential the session was created with, and the header set of the session's
own proxy (built by `initProxyWithConfig` from this connection's
configuration).  The SSE response/transport handle is elided. -/
structure Session where
  id : String
  notionApiKey : String
  headers : List (String × String)
deriving DecidableEq

/-- The `sessions` map: an insertion-ordered association list keyed by
session id, as a JavaScript `Map`. -/
abbrev Registry := List (String × Session)

/-- Model of `sessions.get(id)`. -/
def regGet (reg : Registry) (id : String) : Option Session :=
  reg.lookup id

/-- Model of `sessions.set(id, s)`: overwrite in place, else append. -/
def regSet (reg : Registry) (id : String) (s : Session) : Registry :=
  if (reg.lookup id).isSome then
    reg.map (fun p => if p.1 = id then (id, s) else p)
  else reg ++ [(id, s)]

/-- Model of `sessions.delete(id)`. -/
def regDelete (reg : Registry) (id : String) : Registry :=
  reg.filter (fun p => p.1 != id)

/-- The query parameters of a stream-open (`GET /sse`) request. -/
structure SSEQuery where
  notionApiKey : Option String
  baseUrl : Option String
  notionApiVersion : Option String

/-- Outcome of a stream-open request: an HTTP client error carrying the
error and usage strings, or an opened stream whose first event names the
message endpoint and the new session id. -/
inductive SSEResult where
  | badRequest (status : Nat) (error usage : String)
  | opened (sessionId endpointUrl : String)
deriving DecidableEq

/-- The usage line of the missing-parameter rejection. -/
def sseUsageString : String :=
  "/sse?notionApiKey=YOUR_KEY&baseUrl=https://api.notion.com&notionApiVersion=2022-06-28"

/-- Model of `handleSSEConnection` (variant 1): reject with 400 when the
`notionApiKey` query parameter is missing or empty, before any session id
is generated and without touching the registry; otherwise default the base
URL and version, generate the session id (the fresh id is a parameter
standing for the `Date.now()`/`Math.random()` construction), build the
session's own proxy from this connection's configuration, and register the
session.  Proxy initialization is modelled as succeeding (the bundled spec
document is fixed); the close callback is `closeSession` below. -/
def handleSSEConnection (reg : Registry) (q : SSEQuery) (freshId : String) :
    SSEResult × Registry :=
  match falsyStr q.notionApiKey with
  | none =>
      (.badRequest 400 "Missing required query parameter: notionApiKey" sseUsageString,
        reg)
  | some apiKey =>
      let baseUrl :=
        match falsyStr q.baseUrl with
        | some b => b
        | none => "https://api.notion.com"
      let apiVersion :=
        match falsyStr q.notionApiVersion with
        | some v => v
        | none => "2022-06-28"
      (.opened freshId "/messages",
        regSet reg freshId
          { id := freshId, notionApiKey := apiKey,
            headers := parseHeaders
              (some { baseUrl := some baseUrl, notionApiKey := apiKey,
                      notionApiVersion := some apiVersion }) none none })

/-- The `res.on('close')` callback: the session is deleted from the
registry. -/
def closeSession (reg : Registry) (id : String) : Registry :=
  regDelete reg id

/-- Outcome of a message submission on variant 1's `POST /messages`:
a JSON-RPC rejection with its HTTP status, error code and message; a 202
acknowledgement (the recorded id names the session whose transport received
the message); or a 500 after the transport handler threw. -/
inductive PostResult where
  | rejected (status : Nat) (code : Int) (message : String)
  | accepted (sessionId : String)
  | internalError (sessionId : String) (message : String)
deriving DecidableEq

/-- Delivery of the message to a session's transport
(`transport.receiveMessage`), which may throw. -/
abbrev Deliver := Session → Except String Unit

/-- Forwarding to a session's transport followed by the 202
acknowledgement, or the 500 error when the handler throws. -/
def postToSession (s : Session) (d : Deliver) : PostResult :=
  match d s with
  | .ok _ => .accepted s.id
  | .error m => .internalError s.id m

/-- Session-id resolution of variant 1's `POST /messages`: the `sessionId`
query parameter if truthy, else — exactly when one session is open — the
first (only) key of the sessions map. -/
def resolveSessionIdV1 (reg : Registry) (q : Option String) : Option String :=
  match falsyStr q with
  | some s => some s
  | none =>
      match reg with
      | [p] => some p.1
      | _ => none

/-- Variant 1's `POST /messages` handler: resolve the session id (400
`Session ID required` when impossible), look the session up (404
`Session not found` when absent), and forward the message to its
transport. -/
def postMessages (reg : Registry) (q : Option String) (d : Deliver) : PostResult :=
  match resolveSessionIdV1 reg q with
  | none => .rejected 400 (-32000) "Session ID required"
  | some id =>
      match regGet reg id with
      | none => .rejected 404 (-32000) "Session not found"
      | some s => postToSession s d

/-- A message-submission request with the three places a session id could
be carried: a path segment, a query parameter, a header. -/
structure MessageRequest where
  pathSessionId : Option String
  querySessionId : Option String
  headerSessionId : Option String

/-- Variant 1's `POST /messages` endpoint on a full request: the handler
reads only `req.query.sessionId`. -/
def postMessagesEndpointV1 (reg : Registry) (req : MessageRequest) (d : Deliver) :
    PostResult :=
  postMessages reg req.querySessionId d

/-- Outcome of a message submission on variant 3's endpoints. -/
inductive PostResultV3 where
  | errNotFound (status : Nat) (error : String)
  | acceptedStatus (status : Nat)
  | errHint (status : Nat) (error hint : String)
deriving DecidableEq

/-- Variant 3's `POST /messages/:sessionId` handler: 404 when the path
segment names no open session, else the 202 `{status:'accepted'}`
acknowledgement. -/
def postMessagesSessionPath (reg : Registry) (sessionId : String) : PostResultV3 :=
  match regGet reg sessionId with
  | none => .errNotFound 404 "Session not found"
  | some _ => .acceptedStatus 202

/-- The hint of variant 3's fallback rejection. -/
def messagesHint : String :=
  "Use X-Session-ID header or /messages/:sessionId endpoint"

/-- Variant 3's fallback `POST /messages` handler: only the `X-Session-ID`
header is consulted; when it is truthy and names an open session the
request is re-dispatched (`app._router.handle` with `req.params.sessionId`
set, modelled as invoking the path-segment handler), otherwise 400
`Session ID required` — with no single-session fallback. -/
def postMessagesFallbackV3 (reg : Registry) (headerSessionId : Option String) :
    PostResultV3 :=
  match falsyStr headerSessionId with
  | some id =>
      if (regGet reg id).isSome then postMessagesSessionPath reg id
      else .errHint 400 "Session ID required" messagesHint
  | none => .errHint 400 "Session ID required" messagesHint

/-- The resolution order asserted by the specification — path segment, then
query parameter, then header, then (only with exactly one open session) the
implicit fallback.  Written from the spec's words, for comparison with the
handlers above. -/
def claimedPriorityResolve (req : MessageRequest) (reg : Registry) : Option String :=
  match req.pathSessionId with
  | some id => some id
  | none =>
      match req.querySessionId with
      | some id => some id
      | none =>
          match req.headerSessionId with
          | some id => some id
          | none =>
              match reg with
              | [p] => some p.1
              | _ => none

/-! ## Variant 2: the `/mcp` endpoint's server cache (`getOrCreateServer`) -/

/-- One cached `MCPProxy` of variant 2, with the configuration it was built
from and its parsed header set. -/
structure CachedProxy where
  notionApiKey : String
  baseUrl : String
  notionApiVersion : String
  headers : List (String × String)
deriving DecidableEq

/-- The cache key of `getOrCreateServer`:
the colon-joined `notionApiKey:baseUrl:notionApiVersion`. -/
def cacheKey (notionApiKey baseUrl notionApiVersion : String) : String :=
  notionApiKey ++ ":" ++ baseUrl ++ ":" ++ notionApiVersion

/-- Construction of a new proxy instance for a configuration
(`initProxyWithConfig`), recording the configuration and its parsed
headers. -/
def mkProxyInstance (k b v : String) : CachedProxy :=
  { notionApiKey := k, baseUrl := b, notionApiVersion := v,
    headers := parseHeaders
      (some { baseUrl := some b, notionApiKey := k, notionApiVersion := some v })
      none none }

/-- Model of `getOrCreateServer` (variant 2): return the cached proxy under the
colon-joined key when present, else build a new proxy and cache it. -/
def getOrCreateServer (cache : List (String × CachedProxy)) (k b v : String) :
    CachedProxy × List (String × CachedProxy) :=
  match cache.lookup (cacheKey k b v) with
  | some p => (p, cache)
  | none => (mkProxyInstance k b v, cache ++ [(cacheKey k b v, mkProxyInstance k b v)])

/-! ## Shared routing lemmas -/

/-- A truthy explicit session id unknown to the registry is rejected with
404 `Session not found`. -/
theorem postMessages_not_found (reg : Registry) (id : String) (d : Deliver)
    (hne : id ≠ "") (hnone : regGet reg id = none) :
    postMessages reg (some id) d = .rejected 404 (-32000) "Session not found" := by
  simp only [postMessages, resolveSessionIdV1, falsyStr, if_neg hne, hnone]

/-- A truthy explicit session id naming an open session forwards the
message to that session. -/
theorem postMessages_found (reg : Registry) (id : String) (s : Session)
    (d : Deliver) (hne : id ≠ "") (hs : regGet reg id = some s) :
    postMessages reg (some id) d = postToSession s d := by
  simp only [postMessages, resolveSessionIdV1, falsyStr, if_neg hne, hs]

/-- Without a session id, a registry holding exactly one session routes to
that session. -/
theorem postMessages_single (sid : String) (s : Session) (d : Deliver) :
    postMessages [(sid, s)] none d = postToSession s d := by
  unfold postMessages resolveSessionIdV1 falsyStr regGet
  simp [List.lookup]

/-- Without a session id, a registry not holding exactly one session is
rejected with 400 `Session ID required`. -/
theorem postMessages_required (reg : Registry) (d : Deliver)
    (hlen : reg.length ≠ 1) :
    postMessages reg none d = .rejected 400 (-32000) "Session ID required" := by
  match reg, hlen with
  | [], _ => rfl
  | [p], hlen => exact absurd rfl hlen
  | p :: q :: rest, _ => rfl

/-- Deleting a session removes its id from the registry. -/
theorem regGet_delete (reg : Registry) (id : String) :
    regGet (regDelete reg id) id = none := by
  simp [regGet, regDelete]
  exact fun a b _ hne hq => hne hq.symm

/-- One submission step: variant 1's handler only reads the sessions map,
so the registry is returned unchanged alongside the response. -/
def processPost (reg : Registry) (q : Option String) (d : Deliver) :
    Registry × PostResult :=
  (reg, postMessages reg q d)

/-- A sequence of message submissions, threading the registry and
collecting the responses in order. -/
def runPosts (reg : Registry) : List (Option String × Deliver) → Registry × List PostResult
  | [] => (reg, [])
  | (q, d) :: rest =>
      let step := processPost reg q d
      let next := runPosts step.1 rest
      (next.1, step.2 :: next.2)

/-- Message submissions never change the registry. -/
theorem runPosts_fst (reg : Registry) (posts : List (Option String × Deliver)) :
    (runPosts reg posts).1 = reg := by
  induction posts generalizing reg with
  | nil => rfl
  | cons p rest ih => simp [runPosts, processPost, ih]

/-- The responses of a submission sequence are the pointwise handler
results on the unchanged registry. -/
theorem runPosts_snd (reg : Registry) (posts : List (Option String × Deliver)) :
    (runPosts reg posts).2 = posts.map (fun p => postMessages reg p.1 p.2) := by
  induction posts generalizing reg with
  | nil => rfl
  | cons p rest ih => simp [runPosts, processPost, ih]

/-- Claim C6: a stream-open request whose `notionApiKey` credential is
missing (or empty, which JavaScript treats the same) is rejected with HTTP
400 and a body naming the expected parameters (`notionApiKey`, `baseUrl`,
`notionApiVersion` in the usage line); the result carries no session id and
the registry is returned unchanged — no session is registered for the
rejected attempt. -/
theorem c6_missing_credential_rejected (reg : Registry) (q : SSEQuery)
    (freshId : String) (h : falsyStr q.notionApiKey = none) :
    handleSSEConnection reg q freshId =
      (.badRequest 400 "Missing required query parameter: notionApiKey"
        sseUsageString, reg) := by
  simp only [handleSSEConnection, h]

theorem c6_witness :
    handleSSEConnection []
        { notionApiKey := none, baseUrl := none, notionApiVersion := none }
        "session-1" =
      (.badRequest 400 "Missing required query parameter: notionApiKey"
        sseUsageString, []) :=
  c6_missing_credential_rejected []
    { notionApiKey := none, baseUrl := none, notionApiVersion := none }
    "session-1" rfl

/-- Claim C4: on variant 1's `POST /messages`, a (truthy) explicit session
id matching no open session yields HTTP 404 `Session not found`; no session
id with exactly one open session routes the message to that unique session;
no session id with zero or several open sessions yields HTTP 400
`Session ID required` and the message is never routed to any session. -/
theorem c4_messages_routing (reg : Registry) (d : Deliver) :
    (∀ id, id ≠ "" → regGet reg id = none →
        postMessages reg (some id) d = .rejected 404 (-32000) "Session not found") ∧
    (∀ sid s, postMessages [(sid, s)] none d = postToSession s d) ∧
    (reg.length ≠ 1 →
        postMessages reg none d = .rejected 400 (-32000) "Session ID required") := by
  refine ⟨?_, ?_, ?_⟩
  · intro id hne hnone
    exact postMessages_not_found reg id d hne hnone
  · intro sid s
    exact postMessages_single sid s d
  · intro hlen
    exact postMessages_required reg d hlen

/-- A concrete open session used to instantiate the routing claims. -/
def sessionOne : Session :=
  { id := "s1", notionApiKey := "k1",
    headers := [("Authorization", "Bearer k1"), ("Notion-Version", "2022-06-28")] }

/-- A second concrete open session with a different credential. -/
def sessionTwo : Session :=
  { id := "s2", notionApiKey := "k2",
    headers := [("Authorization", "Bearer k2"), ("Notion-Version", "2022-06-28")] }

/-- A delivery function whose transport handler succeeds. -/
def deliverOk : Deliver := fun _ => .ok ()

theorem c4_witness :
    postMessages [("s1", sessionOne)] (some "zzz") deliverOk =
      .rejected 404 (-32000) "Session not found" ∧
    postMessages [("s1", sessionOne)] none deliverOk = .accepted "s1" ∧
    postMessages [] none deliverOk = .rejected 400 (-32000) "Session ID required" := by
  refine ⟨?_, ?_, ?_⟩
  · exact (c4_messages_routing [("s1", sessionOne)] deliverOk).1 "zzz"
      (by decide) rfl
  · exact (c4_messages_routing [("s1", sessionOne)] deliverOk).2.1 "s1" sessionOne
  · exact (c4_messages_routing [] deliverOk).2.2 (by decide)

/-- Claim C7: closing a session's stream removes it from the registry, and
every subsequently submitted message addressed explicitly to its id is
rejected with 404 `Session not found`; the submissions never re-register
the id (the registry after the whole sequence still lacks it). -/
theorem c7_closed_session_rejected (reg : Registry) (id : String)
    (ds : List Deliver) (h : id ≠ "") :
    regGet (closeSession reg id) id = none ∧
    (∀ r ∈ (runPosts (closeSession reg id)
        (ds.map (fun d => (some id, d)))).2,
      r = .rejected 404 (-32000) "Session not found") ∧
    regGet (runPosts (closeSession reg id)
        (ds.map (fun d => (some id, d)))).1 id = none := by
  have hnone : regGet (closeSession reg id) id = none := regGet_delete reg id
  refine ⟨hnone, ?_, ?_⟩
  · intro r hr
    rw [runPosts_snd] at hr
    obtain ⟨p, hp, hpr⟩ := List.mem_map.mp hr
    obtain ⟨dd, _, hdd⟩ := List.mem_map.mp hp
    subst hpr
    rw [← hdd]
    exact postMessages_not_found (closeSession reg id) id dd h hnone
  · rw [runPosts_fst]
    exact hnone

theorem c7_witness :
    regGet (closeSession [("s1", sessionOne)] "s1") "s1" = none ∧
    (∀ r ∈ (runPosts (closeSession [("s1", sessionOne)] "s1")
        ([deliverOk].map (fun d => (some "s1", d)))).2,
      r = .rejected 404 (-32000) "Session not found") ∧
    regGet (runPosts (closeSession [("s1", sessionOne)] "s1")
        ([deliverOk].map (fun d => (some "s1", d)))).1 "s1" = none :=
  c7_closed_session_rejected [("s1", sessionOne)] "s1" [deliverOk] (by decide)

/-- A registry with two concurrently open sessions. -/
def twoSessions : Registry := [("s1", sessionOne), ("s2", sessionTwo)]

/-- A message that carries its session id only in the `X-Session-ID`
header. -/
def headerOnlyRequest : MessageRequest :=
  { pathSessionId := none, querySessionId := none, headerSessionId := some "s1" }

/-- Counterexample to claim C5: the claimed path-query-header-fallback
resolution chain is implemented by no endpoint.  With two sessions open and
the id of an open session carried in the header, the claimed resolution
picks that session, yet variant 1's `/messages` handler — which never reads
headers — rejects the message with 400 `Session ID required`.  Moreover
variant 3's header-based `/messages` handler has no single-session
fallback: with exactly one session open and no header it also rejects. -/
theorem c5_counterexample :
    claimedPriorityResolve headerOnlyRequest twoSessions = some "s1" ∧
    (regGet twoSessions "s1").isSome = true ∧
    postMessagesEndpointV1 twoSessions headerOnlyRequest deliverOk =
      .rejected 400 (-32000) "Session ID required" ∧
    postMessagesFallbackV3 [("s1", sessionOne)] none =
      .errHint 400 "Session ID required" messagesHint := by
  exact ⟨rfl, rfl, rfl, rfl⟩

/-- Claim C5 (amended): each endpoint resolves the session id from a single
source.  Variant 1's `/messages` uses the query parameter first and — only
when exactly one session is open — the implicit single-session fallback,
never a path segment or header; variant 3's `/messages/:sessionId` uses
only the path segment; variant 3's `/messages` uses only the
`X-Session-ID` header, with no single-session fallback. -/
theorem c5_amended_resolution (reg : Registry) (req : MessageRequest)
    (d : Deliver) (p h' : Option String) :
    (postMessagesEndpointV1 reg
        { pathSessionId := p, querySessionId := req.querySessionId,
          headerSessionId := h' } d =
      postMessagesEndpointV1 reg req d) ∧
    (∀ id s, falsyStr req.querySessionId = some id → regGet reg id = some s →
        postMessagesEndpointV1 reg req d = postToSession s d) ∧
    (∀ sid s, req.querySessionId = none → reg = [(sid, s)] →
        postMessagesEndpointV1 reg req d = postToSession s d) ∧
    (req.querySessionId = none → reg.length ≠ 1 →
        postMessagesEndpointV1 reg req d =
          .rejected 400 (-32000) "Session ID required") ∧
    (∀ id, postMessagesSessionPath reg id =
        (if (regGet reg id).isSome then PostResultV3.acceptedStatus 202
         else PostResultV3.errNotFound 404 "Session not found")) ∧
    (postMessagesFallbackV3 reg none =
        .errHint 400 "Session ID required" messagesHint) ∧
    (∀ hid id, falsyStr hid = some id →
        postMessagesFallbackV3 reg hid =
          (if (regGet reg id).isSome then postMessagesSessionPath reg id
           else .errHint 400 "Session ID required" messagesHint)) := by
  refine ⟨rfl, ?_, ?_, ?_, ?_, rfl, ?_⟩
  · intro id s hq hs
    simp only [postMessagesEndpointV1, postMessages, resolveSessionIdV1, hq, hs]
  · intro sid s hq hreg
    subst hreg
    simp only [postMessagesEndpointV1, hq]
    exact postMessages_single sid s d
  · intro hq hlen
    simp only [postMessagesEndpointV1, hq]
    exact postMessages_required reg d hlen
  · intro id
    simp only [postMessagesSessionPath]
    cases h : regGet reg id <;> simp [h]
  · intro hid id hq
    simp only [postMessagesFallbackV3, hq]

theorem c5_witness :
    postMessagesEndpointV1 [("s1", sessionOne)]
        { pathSessionId := none, querySessionId := some "s1",
          headerSessionId := none } deliverOk = .accepted "s1" ∧
    postMessagesFallbackV3 [("s1", sessionOne)] none =
      .errHint 400 "Session ID required" messagesHint := by
  refine ⟨?_, ?_⟩
  · exact (c5_amended_resolution [("s1", sessionOne)]
      { pathSessionId := none, querySessionId := some "s1", headerSessionId := none }
      deliverOk none none).2.1 "s1" sessionOne rfl rfl
  · exact (c5_amended_resolution [("s1", sessionOne)]
      { pathSessionId := none, querySessionId := some "s1", headerSessionId := none }
      deliverOk none none).2.2.2.2.2.1

/-- Claim C2 (the code violates it): `getOrCreateServer` keys its cache by
the unescaped colon-join of credential, base URL and version, so the
distinct configurations (credential `a:b`, base URL `c`) and (credential
`a`, base URL `b:c`) collide.  The caller whose own credential is `a` is
served the cached proxy built for credential `a:b`, whose Authorization
header is `Bearer a:b` — one caller's calls are issued with the other
caller's credential, contradicting the per-API-key isolation the code's own
comment (`Store MCP server instances per API key`) and the specification
require. -/
theorem c2_cache_collision_leaks_credential :
    cacheKey "a:b" "c" "2022-06-28" = cacheKey "a" "b:c" "2022-06-28" ∧
    (getOrCreateServer ((getOrCreateServer [] "a:b" "c" "2022-06-28").2)
        "a" "b:c" "2022-06-28").1.notionApiKey = "a:b" ∧
    (getOrCreateServer ((getOrCreateServer [] "a:b" "c" "2022-06-28").2)
        "a" "b:c" "2022-06-28").1.headers.lookup "Authorization" =
      some "Bearer a:b" ∧
    ("a" : String) ≠ "a:b" := by
  exact ⟨rfl, by decide, by decide, by decide⟩
